import Mathlib

/-!
A shallow embedding of the FPS-prediction engine of the GPU gaming advisor
(`src/gpu_gaming_advisor/fps_predictor.py`), together with theorems settling
the specification claims about it.

Modelling conventions:
* Python strings are Lean `String`s; case-insensitive comparisons go through
  `Char.toUpper` / `Char.toLower` on the character lists, matching the Python
  `str.upper()` / `str.lower()` on the ASCII table data.
* The floating-point multipliers all carry exactly two decimal
  digits, so they are embedded as exact integer counts of hundredths
  (`280` stands for the source literal `2.80`); a product
  `base × index × resolution × quality` is therefore an integer scaled by
  `10 ^ 6`, and the `int(...)` truncation of Python of the (non-negative) product
  is natural-number division.  The derived definition `raw_fps` recovers the
  real-valued model over `ℚ`, and bridging theorems relate the two.
* The `notes` field of a prediction (free-form advisory strings built from
  the external game catalog) plays no role in any claim and is not modelled.
-/

/-- Needle/hay prefix test on character lists: `listStartsWith n h` is true
when `n` is an initial segment of `h`. -/
def listStartsWith : List Char → List Char → Bool
  | [], _ => true
  | _ :: _, [] => false
  | a :: as, b :: bs => a == b && listStartsWith as bs

/-- Substring containment, `needle in hay` of Python, on character lists. -/
def occursIn (needle hay : List Char) : Bool :=
  match hay with
  | [] => needle.isEmpty
  | _ :: t => listStartsWith needle hay || occursIn needle t

/-- Characters of `s.upper()`. -/
def upChars (s : String) : List Char := s.data.map Char.toUpper

/-- Characters of `s.lower()`. -/
def lowChars (s : String) : List Char := s.data.map Char.toLower

/-- Table `GPU_PERFORMANCE_INDEX` from the source, an ordered association list of
GPU model patterns and performance multipliers; each multiplier is stored as
an exact count of hundredths (`280` = source literal `2.80`, baseline
`RTX 3060` = `100` = `1.00`). -/
def GPU_PERFORMANCE_INDEX : List (String × ℕ) := [
  ("RTX 4090", 280), ("RTX 4080 SUPER", 230), ("RTX 4080", 215),
  ("RTX 4070 TI SUPER", 195), ("RTX 4070 TI", 180), ("RTX 4070 SUPER", 165),
  ("RTX 4070", 145), ("RTX 4060 TI", 125), ("RTX 4060", 110),
  ("RTX 3090 TI", 185), ("RTX 3090", 175), ("RTX 3080 TI", 170),
  ("RTX 3080", 155), ("RTX 3070 TI", 130), ("RTX 3070", 120),
  ("RTX 3060 TI", 110), ("RTX 3060", 100), ("RTX 3050", 70),
  ("RTX 2080 TI", 120), ("RTX 2080 SUPER", 105), ("RTX 2080", 95),
  ("RTX 2070 SUPER", 90), ("RTX 2070", 82), ("RTX 2060 SUPER", 78),
  ("RTX 2060", 70),
  ("GTX 1660 TI", 58), ("GTX 1660 SUPER", 55), ("GTX 1660", 50),
  ("GTX 1650 SUPER", 45), ("GTX 1650", 35),
  ("GTX 1080 TI", 85), ("GTX 1080", 68), ("GTX 1070 TI", 62),
  ("GTX 1070", 55), ("GTX 1060", 42), ("GTX 1050 TI", 28), ("GTX 1050", 22)]

/-- Table `RESOLUTION_MULTIPLIERS` from the source, in hundredths
(`180` = `1.80`, baseline 1080p = `100` = `1.00`). -/
def RESOLUTION_MULTIPLIERS : List (String × ℕ) := [
  ("1280x720", 180), ("1600x900", 140), ("1920x1080", 100),
  ("2560x1080", 85), ("2560x1440", 65), ("3440x1440", 55),
  ("3840x2160", 35), ("5120x2160", 28)]

/-- Table `QUALITY_MULTIPLIERS` from the source, in hundredths
(`200` = `2.00`). -/
def QUALITY_MULTIPLIERS : List (String × ℕ) := [
  ("low", 200), ("medium", 140), ("high", 100), ("ultra", 70),
  ("extreme", 50)]

/-- Table `GAME_BASE_FPS` from the source: base FPS at 1080p high on the baseline
card (plain integers, no scaling). -/
def GAME_BASE_FPS : List (String × ℕ) := [
  ("Cyberpunk 2077", 55), ("Elden Ring", 58), ("Red Dead Redemption 2", 52),
  ("Hogwarts Legacy", 50), ("God of War Ragnarok", 65),
  ("Baldur\x27s Gate 3", 60), ("Starfield", 45), ("Alan Wake 2", 40),
  ("Call of Duty: Warzone", 95), ("Fortnite", 120), ("Counter-Strike 2", 180),
  ("Valorant", 250), ("The Witcher 3: Wild Hunt", 80), ("GTA V", 100),
  ("Minecraft", 150)]

/-- Exact-key association-list lookup, the `dict.get` / `in` of Python on the
tables above (dict keys are unique, so first match is the only match). -/
def tableGet : List (String × ℕ) → List Char → Option ℕ
  | [], _ => none
  | (k, v) :: rest, key => if k.data = key then some v else tableGet rest key

/-- The loop of `_get_gpu_performance_index`: first table entry whose
uppercased pattern occurs in the uppercased input name. -/
def first_substring_match : List (String × ℕ) → List Char → Option ℕ
  | [], _ => none
  | (model_name, idx) :: rest, up =>
    if occursIn (upChars model_name) up then some idx
    else first_substring_match rest up

/-- Embeds `FPSPredictor._get_gpu_performance_index` (result in hundredths;
the conservative fallback `0.50` is `50`). -/
def get_gpu_performance_index (gpu_name : String) : ℕ :=
  (first_substring_match GPU_PERFORMANCE_INDEX (upChars gpu_name)).getD 50

/-- Embeds `FPSPredictor._get_resolution_multiplier` (in hundredths; unknown keys
default to `100` = `1.0`). -/
def get_resolution_multiplier (resolution : String) : ℕ :=
  (tableGet RESOLUTION_MULTIPLIERS resolution.data).getD 100

/-- Embeds `FPSPredictor._get_quality_multiplier` (in hundredths; the key is
lowercased first, and unknown keys default to `100` = `1.0`). -/
def get_quality_multiplier (quality : String) : ℕ :=
  (tableGet QUALITY_MULTIPLIERS (lowChars quality)).getD 100

/-- The partial-match loop of `_get_game_base_fps`: first entry related to
the input by case-insensitive substring containment in either direction. -/
def game_partial_match : List (String × ℕ) → String → Option ℕ
  | [], _ => none
  | (name, fps) :: rest, game_name =>
    if occursIn (lowChars game_name) (lowChars name)
        || occursIn (lowChars name) (lowChars game_name) then some fps
    else game_partial_match rest game_name

/-- Embeds `FPSPredictor._get_game_base_fps`: exact match, then partial match,
then the default of 60 for unknown games. -/
def get_game_base_fps (game_name : String) : ℕ :=
  match tableGet GAME_BASE_FPS game_name.data with
  | some fps => fps
  | none => (game_partial_match GAME_BASE_FPS game_name).getD 60

/-- The `gpu_in_db` test inlined in `predict`: some table pattern occurs
case-insensitively in the GPU name. -/
def gpu_in_database (name : String) : Bool :=
  GPU_PERFORMANCE_INDEX.any fun p => occursIn (upChars p.1) (upChars name)

/-- The `game_in_db` test inlined in `predict`: exact key membership, or the
lowercased input occurring in some lowercased table name.  (Unlike
`_get_game_base_fps`, this checks substring containment in one direction
only.) -/
def game_in_database (game_name : String) : Bool :=
  (tableGet GAME_BASE_FPS game_name.data).isSome
    || GAME_BASE_FPS.any fun p => occursIn (lowChars game_name) (lowChars p.1)

/-- Whether `_get_game_base_fps` resolves the game name by an exact match or
an either-direction substring match (the resolution rule the spec names
`resolveGameBaseline`), rather than falling back to the default of 60. -/
def game_name_matched (game_name : String) : Bool :=
  (tableGet GAME_BASE_FPS game_name.data).isSome
    || (game_partial_match GAME_BASE_FPS game_name).isSome

/-- The fields of `GPUInfo` (from `gpu_detector.py`) that the predictor
reads; the remaining telemetry fields never influence a prediction. -/
structure GPUInfo where
  name : String
  vram_total : ℕ
  architecture : String

/-- Record `FPSPrediction` from the source, minus the advisory `notes` list (see
the module comment). -/
structure FPSPrediction where
  game_name : String
  gpu_name : String
  resolution : String
  quality_preset : String
  fps_min : ℤ
  fps_max : ℤ
  fps_average : ℤ
  fps_1_percent_low : ℤ
  confidence : String

/-- Embeds `FPSPredictor.predict`.  The scaled product
`base_fps * gpu_index * res_multiplier * quality_multiplier` carries a fixed
denominator of `10 ^ 6` (three two-decimal factors), so the
`int(predicted_fps)` on the non-negative product is division by `10 ^ 6`,
and `int(predicted_fps * 0.75)` is `· * 75 / 10 ^ 8`, and so on. -/
def predict (gpu_info : GPUInfo) (game_name resolution quality_preset : String) :
    FPSPrediction :=
  let gpu_index := get_gpu_performance_index gpu_info.name
  let res_multiplier := get_resolution_multiplier resolution
  let quality_multiplier := get_quality_multiplier quality_preset
  let base_fps := get_game_base_fps game_name
  let predicted_scaled := base_fps * gpu_index * res_multiplier * quality_multiplier
  let fps_average : ℤ := ((predicted_scaled / 10 ^ 6 : ℕ) : ℤ)
  let fps_min : ℤ := ((predicted_scaled * 75 / 10 ^ 8 : ℕ) : ℤ)
  let fps_max : ℤ := ((predicted_scaled * 115 / 10 ^ 8 : ℕ) : ℤ)
  let fps_1_percent_low : ℤ := ((predicted_scaled * 60 / 10 ^ 8 : ℕ) : ℤ)
  let confidence :=
    if gpu_in_database gpu_info.name && game_in_database game_name then "high"
    else if gpu_in_database gpu_info.name || game_in_database game_name then "medium"
    else "low"
  ⟨game_name, gpu_info.name, resolution, quality_preset,
    fps_min, fps_max, fps_average, fps_1_percent_low, confidence⟩

/-- The scaled integer numerator of the raw FPS of a prediction (denominator
`10 ^ 6`). -/
def predicted_scaled (gpu_info : GPUInfo) (game_name resolution quality_preset : String) : ℕ :=
  get_game_base_fps game_name * get_gpu_performance_index gpu_info.name
    * get_resolution_multiplier resolution * get_quality_multiplier quality_preset

/-- The result record of `compare_gpus`. -/
structure ComparisonResult where
  gpu1_name : String
  gpu1_fps : ℤ
  gpu2_name : String
  gpu2_fps : ℤ
  fps_difference : ℤ
  percentage_difference : ℚ
  faster_gpu : String
  game : String
  resolution : String
  quality : String

/-- Round half to even, the semantics of the Python built-in `round`. -/
def round_half_to_even (q : ℚ) : ℤ :=
  let f := ⌊q⌋
  if q - f < 1 / 2 then f
  else if 1 / 2 < q - f then f + 1
  else if f % 2 = 0 then f else f + 1

/-- Rounding `round(q, 1)` of Python: round to one decimal digit, half to even. -/
def py_round1 (q : ℚ) : ℚ := ((round_half_to_even (q * 10) : ℤ) : ℚ) / 10

/-- Embeds `FPSPredictor.compare_gpus`: a full prediction for the first GPU, the raw
multiplicative formula for the second, their difference, the rounded
percentage difference (guarded against division by zero), and the faster
name (ties favor GPU 1). -/
def compare_gpus (gpu1_info : GPUInfo) (gpu2_name game_name resolution quality_preset : String) :
    ComparisonResult :=
  let pred1 := predict gpu1_info game_name resolution quality_preset
  let gpu2_index := get_gpu_performance_index gpu2_name
  let base_fps := get_game_base_fps game_name
  let res_multiplier := get_resolution_multiplier resolution
  let quality_multiplier := get_quality_multiplier quality_preset
  let gpu2_fps : ℤ :=
    ((base_fps * gpu2_index * res_multiplier * quality_multiplier / 10 ^ 6 : ℕ) : ℤ)
  let difference := gpu2_fps - pred1.fps_average
  let percentage : ℚ :=
    if 0 < pred1.fps_average
    then (difference : ℚ) / (pred1.fps_average : ℚ) * 100 else 0
  ⟨gpu1_info.name, pred1.fps_average, gpu2_name, gpu2_fps, difference,
    py_round1 percentage,
    if 0 < difference then gpu2_name else gpu1_info.name,
    game_name, resolution, quality_preset⟩

/-- The quality-priority scan order: resolutions high→low, and inside each,
presets high→low. -/
def pairs (rs ps : List String) : List (String × String) :=
  rs.flatMap fun r => ps.map fun p => (r, p)

theorem predict_confidence_eq (gpu_info : GPUInfo) (g r q : String) :
    (predict gpu_info g r q).confidence
      = (if gpu_in_database gpu_info.name && game_in_database g then "high"
        else if gpu_in_database gpu_info.name || game_in_database g then "medium"
        else "low") := rfl


theorem tableGet_mem {l : List (String × ℕ)} {key : List Char} {v : ℕ}
    (h : tableGet l key = some v) : v ∈ l.map Prod.snd := by
  induction l with
  | nil => simp [tableGet] at h
  | cons e rest ih =>
    obtain ⟨k, w⟩ := e
    simp only [tableGet] at h
    split at h
    · injection h with h
      simp [h]
    · simpa using Or.inr (ih h)

theorem get_quality_multiplier_mem (q : String) :
    get_quality_multiplier q ∈ QUALITY_MULTIPLIERS.map Prod.snd ++ [100] := by
  unfold get_quality_multiplier
  cases h : tableGet QUALITY_MULTIPLIERS (lowChars q) with
  | none => simp
  | some v => simp [tableGet_mem h]

theorem first_substring_match_eq_find (l : List (String × ℕ)) (up : List Char) :
    first_substring_match l up
      = (l.find? fun e => occursIn (upChars e.1) up).map Prod.snd := by
  induction l with
  | nil => rfl
  | cons e rest ih =>
    obtain ⟨k, w⟩ := e
    rw [first_substring_match, List.find?_cons]
    cases h : occursIn (upChars k) up with
    | true => simp [h]
    | false => simp [h, ih]

theorem pairs_nil (ps : List String) : pairs [] ps = [] := rfl

theorem compare_gpus_fps_difference_eq (gpu1_info : GPUInfo) (n g r q : String) :
    (compare_gpus gpu1_info n g r q).fps_difference
      = (compare_gpus gpu1_info n g r q).gpu2_fps
        - (predict gpu1_info g r q).fps_average := rfl

theorem compare_gpus_faster_eq (gpu1_info : GPUInfo) (n g r q : String) :
    (compare_gpus gpu1_info n g r q).faster_gpu
      = (if 0 < (compare_gpus gpu1_info n g r q).fps_difference
        then n else gpu1_info.name) := rfl

/-- C3 counterexample: for the processor name "NVIDIA GeForce RTX 3070" and
the game name "Cyberpunk 2077: Phantom Liberty", the processor matches the
index table and `_get_game_base_fps` resolves the game (the table name
"Cyberpunk 2077" occurs in the input), yet the confidence is not "high" —
refuting the claim that confidence is "high" exactly when both names match
per the resolution rules. -/
theorem predict_confidence_counterexample :
    gpu_in_database "NVIDIA GeForce RTX 3070" = true
    ∧ game_name_matched "Cyberpunk 2077: Phantom Liberty" = true
    ∧ (predict ⟨"NVIDIA GeForce RTX 3070", 8192, "Ampere"⟩
        "Cyberpunk 2077: Phantom Liberty" "1920x1080" "high").confidence ≠ "high"
    ∧ (predict ⟨"NVIDIA GeForce RTX 3070", 8192, "Ampere"⟩
        "Cyberpunk 2077: Phantom Liberty" "1920x1080" "high").confidence = "medium" := by
  refine ⟨by decide, by decide, by decide, by decide⟩

/-- C3 (amended): the confidence is "high" exactly when the processor name
matches the performance-index table and the game check of `predict` passes,
where that game check is an exact (case-sensitive) key match or the
lowercased game name occurring as a substring of some lowercased table name
(one direction only — not the either-direction rule of
`_get_game_base_fps`); "medium" exactly when one of the two passes; "low"
exactly when neither passes. -/
theorem predict_confidence_classification (gpu_info : GPUInfo) (g r q : String) :
    ((predict gpu_info g r q).confidence = "high"
      ↔ (gpu_in_database gpu_info.name = true ∧ game_in_database g = true))
    ∧ ((predict gpu_info g r q).confidence = "medium"
      ↔ ((gpu_in_database gpu_info.name = true ∧ game_in_database g = false)
        ∨ (gpu_in_database gpu_info.name = false ∧ game_in_database g = true)))
    ∧ ((predict gpu_info g r q).confidence = "low"
      ↔ (gpu_in_database gpu_info.name = false ∧ game_in_database g = false)) := by
  rw [predict_confidence_eq]
  cases hg : gpu_in_database gpu_info.name <;> cases hm : game_in_database g <;> simp

/-- C8: the processor index is the multiplier of the first table entry (in
the defined order of `GPU_PERFORMANCE_INDEX`) whose pattern occurs
case-insensitively in the input name, and the conservative default 0.50
(stored as `50`) when no pattern occurs. -/
theorem gpu_index_first_match (name : String) :
    get_gpu_performance_index name
      = ((GPU_PERFORMANCE_INDEX.find? fun e =>
          occursIn (upChars e.1) (upChars name)).map Prod.snd).getD 50 := by
  unfold get_gpu_performance_index
  rw [first_substring_match_eq_find]

/-- C10: the `fps2` value that `compare_gpus` computes with its inline raw
formula coincides with the `fps_average` of `predict` applied to any
processor descriptor carrying the name of the second processor (the VRAM and
architecture fields are irrelevant to the average). -/
theorem compare_gpus_fps2_refines_predict (gpu1_info : GPUInfo)
    (gpu2_name : String) (vram : ℕ) (arch : String) (g r q : String) :
    (compare_gpus gpu1_info gpu2_name g r q).gpu2_fps
      = (predict ⟨gpu2_name, vram, arch⟩ g r q).fps_average := rfl
